import Mathlib

/-!
Shallow embedding of the cross-fitted variable-importance workflow written in
the hidimstat example gallery: the per-fold driver `run_one_fold`, the joblib
fold dispatch, and the significance aggregation `compute_pval` of the Iris
classification example (part_002), together with the LOCO example (part_003)
and the seeded repetition driver (part_001).  Importance scalars are modelled
as exact rationals.
-/

/-- Arithmetic mean of a list of rationals; embeds the numpy mean used by
scipy.stats.ttest_1samp over the per-fold importance sample. -/
def listMean (l : List ℚ) : ℚ := l.sum / l.length

/-- Unbiased sample variance (ddof = 1), the variance scipy.stats.ttest_1samp
computes internally.  For a singleton list the rational division by
(length - 1) = 0 yields 0, which the t-test embedding below treats as the
degenerate short-sample case. -/
def listVar (l : List ℚ) : ℚ :=
  (l.map (fun x => (x - listMean l) ^ 2)).sum / ((l.length : ℚ) - 1)

/-- Result of a p-value computation: an ordinary value, or the IEEE NaN that
scipy propagates out of a 0/0 t statistic. -/
inductive PValue where
  | val (p : ℚ) : PValue
  | nan : PValue
deriving DecidableEq, Repr

/-- Embedding of scipy.stats.ttest_1samp(sample, 0, alternative="greater") as
called by compute_pval (part_002, cell 10) and by the LOCO example (part_003,
lines 122-125).  scipy computes t = mean / sqrt(var / n) and p = sf(t), where
sf is the Student-t survival function with n - 1 degrees of freedom.  The
survival function is transcendental floating-point library code, abstracted
here as the parameter `sf` taking (mean, variance, sample size); degenerate
samples are decided before sf is consulted, mirroring the IEEE semantics of scipy:
a zero variance makes the denominator 0, so t is +infinity (and p = sf(+inf)
= 0) for a positive mean, -infinity (p = 1) for a negative mean, and NaN
(p = NaN) for a zero mean; samples of fewer than two points have a NaN sample
variance and hence a NaN p-value. -/
def ttest_1samp_greater (sf : ℚ → ℚ → ℕ → ℚ) (l : List ℚ) : PValue :=
  if l.length < 2 then PValue.nan
  else if listVar l = 0 then
    if 0 < listMean l then PValue.val 0
    else if listMean l < 0 then PValue.val 1
    else PValue.nan
  else PValue.val (sf (listMean l) (listVar l) l.length)

lemma listMean_replicate (n : ℕ) (c : ℚ) (hn : 0 < n) :
    listMean (List.replicate n c) = c := by
  simp only [listMean, List.sum_replicate, List.length_replicate, nsmul_eq_mul]
  field_simp

lemma listVar_replicate (n : ℕ) (c : ℚ) (hn : 0 < n) :
    listVar (List.replicate n c) = 0 := by
  simp [listVar, listMean_replicate n c hn, List.map_replicate]

lemma listMean_perm {l l' : List ℚ} (h : l.Perm l') : listMean l = listMean l' := by
  simp [listMean, h.sum_eq, h.length_eq]

lemma listVar_perm {l l' : List ℚ} (h : l.Perm l') : listVar l = listVar l' := by
  have hm : listMean l = listMean l' := listMean_perm h
  have hmap : (l.map (fun x => (x - listMean l) ^ 2)).Perm
      (l'.map (fun x => (x - listMean l') ^ 2)) := by
    rw [hm]; exact h.map _
  simp [listVar, hmap.sum_eq, h.length_eq]

lemma ttest_1samp_greater_perm (sf : ℚ → ℚ → ℕ → ℚ) {l l' : List ℚ}
    (h : l.Perm l') : ttest_1samp_greater sf l = ttest_1samp_greater sf l' := by
  simp [ttest_1samp_greater, h.length_eq, listVar_perm h, listMean_perm h]

/-- Status of claim C1: corrected.  C1 as stated is false: with K = 2 folds
and identical importance on both folds (zero variance, positive mean), the
aggregation does not raise any error — no class named DegenerateSampleError
exists anywhere in the repository — and the scipy statistic t = mean / 0 = +infinity makes
it silently return the p-value 0. -/
theorem zero_variance_positive_mean_silently_returns_p_zero :
    ttest_1samp_greater (fun _ _ _ => 1 / 2) [1, 1] = PValue.val 0 ∧
      ∀ p : ℚ, PValue.val p ≠ PValue.nan := by
  constructor
  · show ttest_1samp_greater _ [1, 1] = _
    rw [ttest_1samp_greater]
    norm_num [listVar, listMean]
  · intro p h
    exact PValue.noConfusion h

/-- Claim C1, amended: on a zero-variance sample (all folds carrying the same
importance c, with at least 2 folds) the aggregation returns p = 0 when the
common value is positive, p = 1 when it is negative, and the NaN p-value when
it is zero; no error is ever raised. -/
theorem ttest_1samp_greater_constant_sample (sf : ℚ → ℚ → ℕ → ℚ) (n : ℕ) (c : ℚ)
    (hn : 2 ≤ n) :
    ttest_1samp_greater sf (List.replicate n c) =
      if 0 < c then PValue.val 0 else if c < 0 then PValue.val 1 else PValue.nan := by
  have hn0 : 0 < n := lt_of_lt_of_le (by norm_num) hn
  rw [ttest_1samp_greater, if_neg (by simp; omega),
    if_pos (listVar_replicate n c hn0), listMean_replicate n c hn0]

/-- Witness for the amended claim C1 at the boundary input of the spec:
K = 2 folds with identical positive importance 1 on both folds. -/
theorem ttest_1samp_greater_constant_sample_witness :
    ttest_1samp_greater (fun _ _ _ => 1 / 2) (List.replicate 2 (1 : ℚ)) =
      PValue.val 0 := by
  rw [ttest_1samp_greater_constant_sample (fun _ _ _ => 1 / 2) 2 1 (by norm_num)]
  norm_num

/-- Status of claim C2: corrected.  The universally quantified claim fails on
the degenerate sample whose folds all carry importance 0: the scipy t statistic
is 0 / 0 = NaN and the returned p-value is NaN, which lies in no closed
interval; the aggregation output is not a p-value in [0, 1] for that input. -/
theorem identically_zero_sample_yields_nan :
    ttest_1samp_greater (fun _ _ _ => 1 / 2) [0, 0] = PValue.nan ∧
      ∀ p : ℚ, PValue.nan ≠ PValue.val p := by
  constructor
  · rw [ttest_1samp_greater]
    norm_num [listVar, listMean]
  · intro p h
    exact PValue.noConfusion h

/-- Claim C2, amended: for every per-fold importance sample with at least two
folds that is not identically zero, and every Student survival function with
range inside [0, 1], the aggregation returns a p-value in the closed interval
[0, 1]; moreover the computation is a function of the multiset of fold values
only, i.e. invariant under every permutation of the fold order. -/
theorem pvalue_in_unit_interval_and_exchangeable (sf : ℚ → ℚ → ℕ → ℚ)
    (hsf : ∀ m v n, 0 ≤ sf m v n ∧ sf m v n ≤ 1) (l : List ℚ)
    (hlen : 2 ≤ l.length) (hnz : listVar l ≠ 0 ∨ listMean l ≠ 0) :
    (∃ p : ℚ, ttest_1samp_greater sf l = PValue.val p ∧ 0 ≤ p ∧ p ≤ 1) ∧
      ∀ l' : List ℚ, l.Perm l' →
        ttest_1samp_greater sf l = ttest_1samp_greater sf l' := by
  refine ⟨?_, fun l' h => ttest_1samp_greater_perm sf h⟩
  rw [ttest_1samp_greater, if_neg (by omega)]
  by_cases hv : listVar l = 0
  · rcases hnz with hnz | hnz
    · exact absurd hv hnz
    rcases lt_or_gt_of_ne hnz with hneg | hpos
    · rw [if_pos hv, if_neg (by linarith), if_pos hneg]
      exact ⟨1, rfl, by norm_num⟩
    · rw [if_pos hv, if_pos hpos]
      exact ⟨0, rfl, by norm_num⟩
  · rw [if_neg hv]
    exact ⟨_, rfl, (hsf _ _ _).1, (hsf _ _ _).2⟩

/-- Witness for the amended claim C2 on the concrete sample [1, 3] with the
constant-1/2 stand-in for the Student survival function. -/
theorem pvalue_in_unit_interval_and_exchangeable_witness :
    (∃ p : ℚ, ttest_1samp_greater (fun _ _ _ => 1 / 2) [1, 3] = PValue.val p ∧
        0 ≤ p ∧ p ≤ 1) ∧
      ∀ l' : List ℚ, ([1, 3] : List ℚ).Perm l' →
        ttest_1samp_greater (fun _ _ _ => 1 / 2) [1, 3] =
          ttest_1samp_greater (fun _ _ _ => 1 / 2) l' :=
  pvalue_in_unit_interval_and_exchangeable (fun _ _ _ => 1 / 2)
    (fun _ _ _ => by norm_num) [1, 3] (by norm_num)
    (Or.inl (by norm_num [listVar, listMean]))

/-- Concrete estimator classes constructed in the models list of part_002
(cell 8): a LogisticRegressionCV and a GridSearchCV-wrapped SVC. -/
inductive ModelClass where
  | logisticRegressionCV : ModelClass
  | gridSearchSVC : ModelClass
deriving DecidableEq, Repr

/-- Output channel requested from the fitted estimator. -/
inductive PredictMethod where
  | predict_proba : PredictMethod
  | decision_function : PredictMethod
deriving DecidableEq, Repr

/-- Loss paired with the output channel. -/
inductive LossFunction where
  | log_loss : LossFunction
  | hinge_loss : LossFunction
deriving DecidableEq, Repr

/-- The isinstance(model_c, LogisticRegressionCV) runtime type test performed
by run_one_fold in part_002. -/
def isLogisticRegressionCV : ModelClass → Bool
  | ModelClass.logisticRegressionCV => true
  | ModelClass.gridSearchSVC => false

/-- The dynamic dispatch at the top of run_one_fold (part_002): a
LogisticRegressionCV gets predict_proba with log_loss under the display name
"LogReg"; every other estimator gets decision_function with hinge_loss under
the display name "SVC". -/
def foldDispatch (m : ModelClass) : PredictMethod × LossFunction × String :=
  if isLogisticRegressionCV m then
    (PredictMethod.predict_proba, LossFunction.log_loss, "LogReg")
  else
    (PredictMethod.decision_function, LossFunction.hinge_loss, "SVC")

/-- One row of the data frame returned by run_one_fold (part_002): feature or
group name, importance scalar, importance-method name, model display name and
the balanced-accuracy score of the fold. -/
structure ImportanceRecord where
  feature : String
  importance : ℚ
  vim : String
  model : String
  score : ℚ
deriving DecidableEq, Repr

/-- Embedding of run_one_fold (part_002): the base model is cloned and fitted
on the training split, the importance method is fitted and evaluated on the
held-out split, and a data frame with one row per group key is returned.  The
importance vector produced by the external estimator (hidimstat CPI or PFI)
is passed in as `importance`, one scalar per group, aligned with the group
keys exactly as the source zips groups.keys() with the importance array. -/
def run_one_fold (groups : List String) (model : ModelClass) (vimName : String)
    (importance : List ℚ) (score : ℚ) : List ImportanceRecord :=
  List.zipWith
    (fun f i =>
      { feature := f, importance := i, vim := vimName,
        model := (foldDispatch model).2.2, score := score })
    groups importance

/-- Embedding of the out_list comprehension of part_002 (cell 8): one
run_one_fold task per (fold, model, importance-method) triple, folds
outermost, in generator order.  `imp` and `score` stand for the importance
vector and fold score the external libraries deterministically produce for a
given fold and configuration. -/
def out_list (K : ℕ) (models : List ModelClass) (vims : List String)
    (groups : List String) (imp : ℕ → ModelClass → String → List ℚ)
    (score : ℕ → ModelClass → ℚ) : List (List ImportanceRecord) :=
  (List.range K).flatMap fun k =>
    models.flatMap fun m =>
      vims.map fun v =>
        run_one_fold groups m v (imp k m v) (score k m)

/-- The data frame df = pd.concat(out_list) of part_002. -/
def df_records (K : ℕ) (models : List ModelClass) (vims : List String)
    (groups : List String) (imp : ℕ → ModelClass → String → List ℚ)
    (score : ℕ → ModelClass → ℚ) : List ImportanceRecord :=
  (out_list K models vims groups imp score).flatten

/-- The (feature, importance-method, model) key a significance sample is
collected for. -/
def matchKey (f v name : String) (r : ImportanceRecord) : Bool :=
  r.feature == f && r.vim == v && r.model == name

/-- Status of claim C9: confirmed.  run_one_fold selects the output channel
and the loss by a runtime isinstance test: LogisticRegressionCV gets
predict_proba with log_loss, the GridSearchCV-wrapped SVC (like any estimator
that is not a LogisticRegressionCV) gets decision_function with hinge_loss,
and no estimator reachable through the models list of part_002 gets any other
combination. -/
theorem foldDispatch_channels :
    foldDispatch ModelClass.logisticRegressionCV =
      (PredictMethod.predict_proba, LossFunction.log_loss, "LogReg") ∧
    foldDispatch ModelClass.gridSearchSVC =
      (PredictMethod.decision_function, LossFunction.hinge_loss, "SVC") ∧
    ∀ m : ModelClass,
      foldDispatch m = foldDispatch ModelClass.logisticRegressionCV ∨
      foldDispatch m = foldDispatch ModelClass.gridSearchSVC := by
  refine ⟨rfl, rfl, fun m => ?_⟩
  cases m
  · exact Or.inl rfl
  · exact Or.inr rfl

/-- One row of the df_pval data frame built by compute_pval (part_002). -/
structure PvalRecord where
  feature : String
  vim : String
  model : String
  pval : PValue
  y_coord : ℚ
deriving DecidableEq, Repr

/-- Maximum of a list of rationals, as pandas max over a non-empty column;
the 0 default is never reached by compute_pval because the importance-method
values iterated over are drawn from the very frame being filtered. -/
def listMax : List ℚ → ℚ
  | [] => 0
  | x :: xs => xs.foldl max x

/-- The query "pval < threshold" of compute_pval: a NaN p-value compares
false and is dropped, like in pandas. -/
def pvalPasses (threshold : ℚ) : PValue → Bool
  | PValue.val p => decide (p < threshold)
  | PValue.nan => false

/-- The per-key importance sample compute_pval extracts: the importance
column of the rows matching a fixed (model, importance-method, feature)
triple. -/
def sampleOf (df : List ImportanceRecord) (m v f : String) : List ℚ :=
  (df.filter (matchKey f v m)).map (fun r => r.importance)

/-- Embedding of compute_pval (part_002, cell 10): for every model name,
importance-method name and feature name occurring in the frame (first
occurrence order, as pandas unique), run the one-sample greater t-test on the
matching importance sample, record the p-value together with the maximal
importance of the method (the plotting y coordinate), and keep only the rows
whose p-value is strictly below the threshold (default 0.05 at the call
site). -/
def df_pval_list (sf : ℚ → ℚ → ℕ → ℚ) (df : List ImportanceRecord) :
    List PvalRecord :=
  ((df.map (fun r => r.model)).eraseDups).flatMap fun m =>
    ((df.map (fun r => r.vim)).eraseDups).flatMap fun v =>
      ((df.map (fun r => r.feature)).eraseDups).map fun f =>
        { feature := f, vim := v, model := m,
          pval := ttest_1samp_greater sf (sampleOf df m v f),
          y_coord := listMax
            ((df.filter (fun r => r.vim == v)).map (fun r => r.importance)) }

/-- The df_pval = df_pval.query("pval < threshold") step closing
compute_pval. -/
def compute_pval (sf : ℚ → ℚ → ℕ → ℚ) (df : List ImportanceRecord)
    (threshold : ℚ) : List PvalRecord :=
  (df_pval_list sf df).filter fun r => pvalPasses threshold r.pval

/-- The default significance threshold in the signature of compute_pval. -/
def thresholdDefault : ℚ := 1 / 20

/-- Status of claim C4: confirmed.  compute_pval reads nothing but the record
collection and the threshold (no global state, no random draw): applied twice
to the same records it returns identical p-value frames. -/
theorem compute_pval_pure (sf : ℚ → ℚ → ℕ → ℚ)
    (df₁ df₂ : List ImportanceRecord) (t₁ t₂ : ℚ)
    (hdf : df₁ = df₂) (ht : t₁ = t₂) :
    compute_pval sf df₁ t₁ = compute_pval sf df₂ t₂ := by
  rw [hdf, ht]

/-- Witness for claim C4 on a concrete one-record collection. -/
theorem compute_pval_pure_witness :
    compute_pval (fun _ _ _ => 1 / 2)
        [{ feature := "sepal", importance := 1, vim := "CPI",
           model := "LogReg", score := 1 }] thresholdDefault =
      compute_pval (fun _ _ _ => 1 / 2)
        [{ feature := "sepal", importance := 1, vim := "CPI",
           model := "LogReg", score := 1 }] thresholdDefault :=
  compute_pval_pure (fun _ _ _ => 1 / 2) _ _ _ _ rfl rfl

/-- Status of claim C10: confirmed.  compute_pval returns only rows whose
p-value is strictly below the threshold, and a (feature, method, model) key
whose t-test p-value is not below the threshold (or is NaN) contributes no
row at all to the returned frame, so non-significant p-values cannot be read
off the output. -/
theorem compute_pval_keeps_only_significant (sf : ℚ → ℚ → ℕ → ℚ)
    (df : List ImportanceRecord) (threshold : ℚ) (f v m : String)
    (hhigh : ∀ p : ℚ,
      ttest_1samp_greater sf (sampleOf df m v f) = PValue.val p →
        threshold ≤ p) :
    (∀ r ∈ compute_pval sf df threshold,
        ∃ p : ℚ, r.pval = PValue.val p ∧ p < threshold) ∧
      ∀ r ∈ compute_pval sf df threshold,
        ¬(r.feature = f ∧ r.vim = v ∧ r.model = m) := by
  have hpass : ∀ r ∈ compute_pval sf df threshold,
      ∃ p : ℚ, r.pval = PValue.val p ∧ p < threshold := by
    intro r hr
    rw [compute_pval] at hr
    have hp := (List.mem_filter.mp hr).2
    cases hpv : r.pval with
    | val p =>
        refine ⟨p, rfl, ?_⟩
        rw [hpv] at hp
        simpa [pvalPasses] using hp
    | nan =>
        rw [hpv] at hp
        simp [pvalPasses] at hp
  refine ⟨hpass, ?_⟩
  rintro r hr ⟨hf, hv, hm⟩
  obtain ⟨p, hpv, hplt⟩ := hpass r hr
  rw [compute_pval] at hr
  have hmem := (List.mem_filter.mp hr).1
  rw [df_pval_list] at hmem
  simp only [List.mem_flatMap, List.mem_map] at hmem
  obtain ⟨m', _, v', _, f', _, hreq⟩ := hmem
  have hf' : f' = f := by rw [← hf, ← hreq]
  have hv' : v' = v := by rw [← hv, ← hreq]
  have hm' : m' = m := by rw [← hm, ← hreq]
  have hpval : r.pval = ttest_1samp_greater sf (sampleOf df m v f) := by
    rw [← hreq, hf', hv', hm']
  rw [hpv] at hpval
  exact absurd hplt (not_lt.mpr (hhigh p hpval.symm))

/-- Witness for claim C10: a two-feature record collection in which the
feature "b" carries the identically-zero importance sample, whose NaN p-value
keeps it out of the output. -/
theorem compute_pval_keeps_only_significant_witness :
    (∀ r ∈ compute_pval (fun _ _ _ => 1 / 2)
        [{ feature := "a", importance := 1, vim := "CPI",
           model := "LogReg", score := 1 },
         { feature := "b", importance := 0, vim := "CPI",
           model := "LogReg", score := 1 },
         { feature := "a", importance := 2, vim := "CPI",
           model := "LogReg", score := 1 },
         { feature := "b", importance := 0, vim := "CPI",
           model := "LogReg", score := 1 }] thresholdDefault,
        ∃ p : ℚ, r.pval = PValue.val p ∧ p < thresholdDefault) ∧
      ∀ r ∈ compute_pval (fun _ _ _ => 1 / 2)
        [{ feature := "a", importance := 1, vim := "CPI",
           model := "LogReg", score := 1 },
         { feature := "b", importance := 0, vim := "CPI",
           model := "LogReg", score := 1 },
         { feature := "a", importance := 2, vim := "CPI",
           model := "LogReg", score := 1 },
         { feature := "b", importance := 0, vim := "CPI",
           model := "LogReg", score := 1 }] thresholdDefault,
        ¬(r.feature = "b" ∧ r.vim = "CPI" ∧ r.model = "LogReg") :=
  compute_pval_keeps_only_significant (fun _ _ _ => 1 / 2) _ thresholdDefault
    "b" "CPI" "LogReg" (by
      intro p hp
      rw [show sampleOf
          [{ feature := "a", importance := 1, vim := "CPI",
             model := "LogReg", score := 1 },
           { feature := "b", importance := 0, vim := "CPI",
             model := "LogReg", score := 1 },
           { feature := "a", importance := 2, vim := "CPI",
             model := "LogReg", score := 1 },
           { feature := "b", importance := 0, vim := "CPI",
             model := "LogReg", score := 1 }] "LogReg" "CPI" "b" = [0, 0] by
        rfl] at hp
      rw [ttest_1samp_greater] at hp
      norm_num [listVar, listMean] at hp
      exact PValue.noConfusion hp)

lemma length_filter_flatten {α : Type} (p : α → Bool) (L : List (List α)) :
    ((L.flatten).filter p).length =
      (L.map fun l => (l.filter p).length).sum := by
  induction L with
  | nil => simp
  | cons l ls ih => simp [List.filter_append, ih, Function.comp_def]

lemma sum_map_flatMap {α β : Type} (g : α → List β) (h : β → ℕ) (l : List α) :
    ((l.flatMap g).map h).sum = (l.map fun x => ((g x).map h).sum).sum := by
  induction l with
  | nil => simp
  | cons a as ih => simp [ih]

lemma sum_map_ite_eq (l : List String) (a : String) (c : ℕ) :
    (l.map fun x => if x = a then c else 0).sum = l.count a * c := by
  induction l with
  | nil => simp
  | cons x xs ih =>
      by_cases hx : x = a
      · simp [hx, ih, List.count_cons, Nat.succ_mul, Nat.add_comm]
      · simp [hx, ih, List.count_cons, Ne.symm hx]

lemma run_one_fold_filter_length (m : ModelClass) (v : String) (s : ℚ)
    (f v' name : String) :
    ∀ (groups : List String) (impv : List ℚ), impv.length = groups.length →
      ((run_one_fold groups m v impv s).filter (matchKey f v' name)).length =
        if v = v' ∧ (foldDispatch m).2.2 = name then groups.count f else 0 := by
  intro groups
  induction groups with
  | nil =>
      intro impv _
      simp [run_one_fold, matchKey]
  | cons g gs ih =>
      intro impv hlen
      cases impv with
      | nil => simp at hlen
      | cons i is =>
          have hlen' : is.length = gs.length := by simpa using hlen
          have hrec := ih is hlen'
          have hcons : run_one_fold (g :: gs) m v (i :: is) s =
              { feature := g, importance := i, vim := v,
                model := (foldDispatch m).2.2, score := s } ::
                run_one_fold gs m v is s := rfl
          rw [hcons, List.filter_cons]
          by_cases hc : v = v' ∧ (foldDispatch m).2.2 = name
          · obtain ⟨hv, hname⟩ := hc
            subst hv
            subst hname
            rw [if_pos (And.intro rfl rfl)] at hrec
            rw [if_pos (And.intro rfl rfl)]
            by_cases hg : g = f
            · subst hg
              rw [if_pos (by simp [matchKey])]
              simp [hrec, List.count_cons]
            · rw [if_neg (by simp [matchKey, hg])]
              rw [hrec]
              simp [List.count_cons, Ne.symm hg]
          · have hmatch : matchKey f v' name
                { feature := g, importance := i, vim := v,
                  model := (foldDispatch m).2.2, score := s } = false := by
              rcases not_and_or.mp hc with hv | hname
              · simp [matchKey, hv]
              · simp [matchKey, hname]
            rw [if_neg (by simp [hmatch])]
            rw [hrec]
            rw [if_neg hc, if_neg hc]

/-- Status of claim C3: confirmed.  For every dataset abstraction, every
importance method of the run, and every group key of the mapping, the driver
comprehension of part_002 emits exactly one importance row per (group, fold)
pair: a fixed (feature, method, model) triple collects exactly K rows across
a K-fold split (the rows are plain immutable values of the embedding, and the
source never writes to a produced frame).  The hypotheses record the source
facts that the group keys, method names and model display names are pairwise
distinct and that the external importance call returns one scalar per group
key. -/
theorem exactly_K_records_per_feature_method (K : ℕ) (models : List ModelClass)
    (vims : List String) (groups : List String)
    (imp : ℕ → ModelClass → String → List ℚ) (score : ℕ → ModelClass → ℚ)
    (f v : String) (m : ModelClass)
    (hgd : groups.Nodup) (hvd : vims.Nodup)
    (hmd : (models.map fun m' => (foldDispatch m').2.2).Nodup)
    (hf : f ∈ groups) (hv : v ∈ vims) (hm : m ∈ models)
    (himp : ∀ k m' v', (imp k m' v').length = groups.length) :
    ((df_records K models vims groups imp score).filter
        (matchKey f v ((foldDispatch m).2.2))).length = K := by
  have hfold : ∀ (k : ℕ) (m' : ModelClass) (v'' : String),
      ((run_one_fold groups m' v'' (imp k m' v'') (score k m')).filter
          (matchKey f v ((foldDispatch m).2.2))).length =
        if v'' = v ∧ (foldDispatch m').2.2 = (foldDispatch m).2.2
          then groups.count f else 0 :=
    fun k m' v'' =>
      run_one_fold_filter_length m' v'' (score k m') f v ((foldDispatch m).2.2)
        groups (imp k m' v'') (himp k m' v'')
  have hvims : ∀ m' : ModelClass,
      (vims.map fun v'' =>
        if v'' = v ∧ (foldDispatch m').2.2 = (foldDispatch m).2.2
          then groups.count f else 0).sum =
      if (foldDispatch m').2.2 = (foldDispatch m).2.2
        then groups.count f else 0 := by
    intro m'
    by_cases hQ : (foldDispatch m').2.2 = (foldDispatch m).2.2
    · rw [if_pos hQ]
      have hcg : (vims.map fun v'' =>
          if v'' = v ∧ (foldDispatch m').2.2 = (foldDispatch m).2.2
            then groups.count f else 0) =
          vims.map fun v'' => if v'' = v then groups.count f else 0 := by
        apply List.map_congr_left
        intro v'' _
        simp [hQ]
      rw [hcg, sum_map_ite_eq, List.count_eq_one_of_mem hvd hv, one_mul]
    · rw [if_neg hQ]
      have hcg : (vims.map fun v'' =>
          if v'' = v ∧ (foldDispatch m').2.2 = (foldDispatch m).2.2
            then groups.count f else 0) = vims.map fun _ => 0 := by
        apply List.map_congr_left
        intro v'' _
        simp [hQ]
      rw [hcg]
      simp
  have hmodels :
      (models.map fun m' =>
        if (foldDispatch m').2.2 = (foldDispatch m).2.2
          then groups.count f else 0).sum = groups.count f := by
    have hmm : (models.map fun m' =>
        if (foldDispatch m').2.2 = (foldDispatch m).2.2
          then groups.count f else 0) =
        (models.map fun m' => (foldDispatch m').2.2).map
          fun x => if x = (foldDispatch m).2.2 then groups.count f else 0 := by
      rw [List.map_map]
      rfl
    rw [hmm, sum_map_ite_eq,
      List.count_eq_one_of_mem hmd (List.mem_map_of_mem _ hm), one_mul]
  rw [df_records, out_list, length_filter_flatten, sum_map_flatMap]
  simp only [sum_map_flatMap, List.map_map, Function.comp_def]
  simp only [hfold, hvims, hmodels]
  rw [List.count_eq_one_of_mem hgd hf]
  simp

/-- Witness for claim C3 at the grouped configuration of part_002 (cell 15):
two groups, both models, both importance methods, K = 2 folds, one importance
scalar per group. -/
theorem exactly_K_records_per_feature_method_witness :
    ((df_records 2 [ModelClass.logisticRegressionCV, ModelClass.gridSearchSVC]
        ["CPI", "PFI"] ["sepal features", "petal features"]
        (fun _ _ _ => [1, 2]) (fun _ _ => 1)).filter
      (matchKey "sepal features" "CPI"
        ((foldDispatch ModelClass.logisticRegressionCV).2.2))).length = 2 :=
  exactly_K_records_per_feature_method 2
    [ModelClass.logisticRegressionCV, ModelClass.gridSearchSVC]
    ["CPI", "PFI"] ["sepal features", "petal features"]
    (fun _ _ _ => [1, 2]) (fun _ _ => 1)
    "sepal features" "CPI" ModelClass.logisticRegressionCV
    (by decide) (by decide) (by decide) (by decide) (by decide) (by decide)
    (fun _ _ _ => rfl)

/-- Events of one run_one_fold call (part_002), in source order: the base
model is cloned and fitted, then the importance estimator is fitted — the
first and only consumer of the groups argument — then scored. -/
inductive FoldEvent where
  | baseFit : FoldEvent
  | vimFit : FoldEvent
  | vimImportance : FoldEvent
deriving DecidableEq, Repr

/-- Errors surfaced by the example driver.  The repository defines no error
class of its own (in particular none named ConfigurationError): an invalid
fold count surfaces as the ValueError that the KFold of scikit-learn raises when its
split generator is iterated, modelled from the documented contract of that
collaborator, and an out-of-range group index surfaces as the IndexError numpy
raises inside vim.fit. -/
inductive DriverError where
  | valueErrorKFold : DriverError
  | indexErrorGroups : DriverError
deriving DecidableEq, Repr

/-- Event trace of one run_one_fold body (part_002): model_c.fit runs first,
unconditionally; the groups argument is consumed only afterwards, by
vim.fit, so a fold given an out-of-range group mapping still performs its
base fit and only then fails. -/
def run_one_fold_events (groupsInRange : Bool) : List FoldEvent × Bool :=
  if groupsInRange then
    ([FoldEvent.baseFit, FoldEvent.vimFit, FoldEvent.vimImportance], true)
  else
    ([FoldEvent.baseFit], false)

/-- Trace semantics of the out_list driver (part_002, cells 8 and 15) for a
requested fold count and sample count: the fold count is checked by the
external KFold generator when first iterated, before any fold body runs; the
group mapping is checked nowhere before dispatch, so fold bodies run up to
the first group-index failure. -/
def driver_events (n_splits n_samples : ℕ) (groupsInRange : Bool) :
    List FoldEvent × Option DriverError :=
  if n_samples < n_splits then ([], some DriverError.valueErrorKFold)
  else if groupsInRange then
    ((List.range n_splits).flatMap fun _ => (run_one_fold_events true).1, none)
  else ((run_one_fold_events false).1, some DriverError.indexErrorGroups)

/-- Status of claim C5: corrected.  The claim is false for the group-mapping
half: with a valid fold count (5 folds, 150 samples, the Iris configuration)
and a group mapping referencing an out-of-range feature index, the driver
does not fail before computation starts — the base model fit of the fold has
already run when the group failure surfaces, and the error is the numpy
IndexError inside vim.fit, not a ConfigurationError (no such class exists in
the repository). -/
theorem invalid_groups_fail_after_base_fit :
    FoldEvent.baseFit ∈ (driver_events 5 150 false).1 ∧
      (driver_events 5 150 false).2 = some DriverError.indexErrorGroups := by
  decide

/-- Claim C5, amended: an invalid fold count (more folds than samples) makes
the fold generator raise before any fold body runs (an empty event trace,
with the scikit-learn ValueError rather than a ConfigurationError), whereas an
out-of-range group mapping is not pre-validated at all: the dispatched fold
performs its base fit and then fails inside vim.fit with an IndexError. -/
theorem driver_misconfiguration_behaviour (n_splits n_samples : ℕ)
    (gInRange : Bool) :
    (n_samples < n_splits →
      driver_events n_splits n_samples gInRange =
        ([], some DriverError.valueErrorKFold)) ∧
    (n_splits ≤ n_samples →
      driver_events n_splits n_samples false =
        ([FoldEvent.baseFit], some DriverError.indexErrorGroups)) := by
  constructor
  · intro h
    rw [driver_events, if_pos h]
  · intro h
    rw [driver_events, if_neg (by omega)]
    rfl

/-- Witness for the amended claim C5: 5 folds requested over 3 samples fail
up front; 5 folds over 150 samples with a bad group mapping fail inside the
first fold, after its base fit. -/
theorem driver_misconfiguration_behaviour_witness :
    driver_events 5 3 true = ([], some DriverError.valueErrorKFold) ∧
      driver_events 5 150 false =
        ([FoldEvent.baseFit], some DriverError.indexErrorGroups) :=
  ⟨(driver_misconfiguration_behaviour 5 3 true).1 (by norm_num),
    (driver_misconfiguration_behaviour 5 150 true).2 (by norm_num)⟩

/-- Model of joblib.Parallel as used at part_002 cell 8: each generator task
either returns its value or raises; a raised exception propagates out of the
Parallel call, which then yields no result list at all.  There is no retry
and no skipping: the first failure is surfaced to the caller, and the
results of every other task are discarded with it. -/
def joblibParallel {α : Type} : List (Option α) → Option (List α)
  | [] => some []
  | none :: _ => none
  | some x :: rest => (joblibParallel rest).map (fun l => x :: l)

/-- Status of claim C7: corrected.  The isolation half of the claim is false: when
the middle of three folds raises during fitting, the surrounding folds'
completed record frames are discarded too — the whole Parallel call yields
nothing, so the failure of one fold does abort the computation of the others.
(The repository also defines no EstimatorFitError: the raw estimator
exception propagates unwrapped; the only exception handling in the corpus is
the blanket try/except MemoryError around desparsified_lasso in part_000.) -/
theorem failing_fold_discards_other_folds :
    joblibParallel [some ([] : List ImportanceRecord), none, some []] = none ∧
      ∀ rs : List (List ImportanceRecord),
        joblibParallel [some ([] : List ImportanceRecord), none, some []] ≠
          some rs := by
  constructor
  · rfl
  · intro rs h
    exact Option.noConfusion h

/-- Claim C7, amended: a fold whose fit raises is neither retried nor
silently skipped — the failure is always surfaced, the Parallel call
returning no result exactly when some fold failed — but the failure aborts
the whole run, losing the records of every other fold, rather than being isolated
per fold. -/
theorem joblibParallel_fails_iff_some_fold_fails
    (tasks : List (Option (List ImportanceRecord))) :
    joblibParallel tasks = none ↔ none ∈ tasks := by
  induction tasks with
  | nil => simp [joblibParallel]
  | cons t ts ih =>
      cases t with
      | none => simp [joblibParallel]
      | some x => simp [joblibParallel, Option.map_eq_none', ih]

/-- Feature matrix row with the columns of group g removed, as X^{-g} in the
docstring of plot_model_agnostic_importance (part_003). -/
def dropCols (g : List ℕ) (row : List ℚ) : List ℚ :=
  (row.enum.filter fun p => decide (p.1 ∉ g)).map Prod.snd

/-- An abstract cloneable base learner: fitting on a training matrix and
target vector yields a prediction function over test rows.  This is the
external collaborator interface of the spec. -/
structure Learner where
  fit : List (List ℚ) → List ℚ → (List (List ℚ) → List ℚ)

/-- Modelled from the spec: the LOCO estimator itself is implemented in the
hidimstat package, which is absent from the files of this repository (part_003
only imports and calls it).  Following the algorithm of the spec and the
docstring of part_003 — LOCO re-fits a sub-model on the data with the group
of interest removed, and the importance is the test-set loss of the reduced
model minus the test-set loss of the full model. -/
def loco_importance (loss : List ℚ → List ℚ → ℚ) (learner : Learner)
    (Xtrain : List (List ℚ)) (ytrain : List ℚ)
    (Xtest : List (List ℚ)) (ytest : List ℚ) (g : List ℕ) : ℚ :=
  loss ytest
      (learner.fit (Xtrain.map (dropCols g)) ytrain (Xtest.map (dropCols g))) -
    loss ytest (learner.fit Xtrain ytrain Xtest)

/-- Status of claim C6: confirmed (against the spec-modelled LOCO, the
implementation living in the external hidimstat package).  For every group g
the LOCO importance is exactly the reduced-model test loss minus the
full-model test loss, and it is positive exactly when removing the group
worsens (raises) the test loss. -/
theorem loco_importance_is_loss_difference (loss : List ℚ → List ℚ → ℚ)
    (learner : Learner) (Xtrain : List (List ℚ)) (ytrain : List ℚ)
    (Xtest : List (List ℚ)) (ytest : List ℚ) (g : List ℕ) :
    loco_importance loss learner Xtrain ytrain Xtest ytest g =
        loss ytest (learner.fit (Xtrain.map (dropCols g)) ytrain
          (Xtest.map (dropCols g))) -
          loss ytest (learner.fit Xtrain ytrain Xtest) ∧
      (0 < loco_importance loss learner Xtrain ytrain Xtest ytest g ↔
        loss ytest (learner.fit Xtrain ytrain Xtest) <
          loss ytest (learner.fit (Xtrain.map (dropCols g)) ytrain
            (Xtest.map (dropCols g)))) :=
  ⟨rfl, sub_pos⟩

/-- Execution of the dispatched tasks in an arbitrary completion order: the
task with index i computes f i — in the sources a pure function of the fixed
dataset and the fixed seeds, since every stochastic component receives an
explicit random_state (random_state=0 throughout part_002, the seed_list
derived from the fixed seed 45 in part_001) — and is tagged with its task
index. -/
def execSchedule {α : Type} (f : ℕ → α) (order : List ℕ) : List (ℕ × α) :=
  order.map fun i => (i, f i)

/-- joblib hands results back in task-submission order whatever the
completion order: collect the result of each task index from the completed
pool. -/
def collectResults {α : Type} (n : ℕ) (store : List (ℕ × α)) :
    List (Option α) :=
  (List.range n).map fun i => (store.find? fun p => p.1 == i).map Prod.snd

lemma find_execSchedule {α : Type} (f : ℕ → α) (order : List ℕ) (i : ℕ)
    (h : i ∈ order) :
    (execSchedule f order).find? (fun p => p.1 == i) = some (i, f i) := by
  induction order with
  | nil => cases h
  | cons j rest ih =>
      by_cases hji : j = i
      · subst hji
        simp [execSchedule, List.find?_cons_of_pos]
      · have hmem : i ∈ rest := by
          cases List.mem_cons.mp h with
          | inl hh => exact absurd hh.symm hji
          | inr hh => exact hh
        have hstep : execSchedule f (j :: rest) =
            (j, f j) :: execSchedule f rest := rfl
        rw [hstep, List.find?_cons_of_neg _ (by simpa using hji), ih hmem]

lemma collect_execSchedule {α : Type} (f : ℕ → α) (n : ℕ) (order : List ℕ)
    (h : order.Perm (List.range n)) :
    collectResults n (execSchedule f order) =
      (List.range n).map fun i => some (f i) := by
  apply List.map_congr_left
  intro i hi
  rw [find_execSchedule f order i (h.mem_iff.mpr hi)]
  rfl

lemma map_getD_range {α : Type} (l : List α) (d : α) :
    (List.range l.length).map (fun i => l.getD i d) = l := by
  apply List.ext_getElem
  · simp
  · intro i h1 h2
    simp [List.getD_eq_getElem l d h2, List.getElem?_eq_getElem h2]

/-- Status of claim C8: confirmed within the embedding.  The per-task record
frames are pure functions of the dataset and the explicitly threaded seeds
(every stochastic call in the sources carries a fixed random_state), so for
any two completion orders of the dispatched tasks — any permutations of the
task index range — the assembled results are identical, and both equal the
per-task frames in submission order.  Bit-level floating-point effects are
outside the embedding: importance scalars are modelled as exact rationals. -/
theorem records_identical_under_any_schedule (K : ℕ)
    (models : List ModelClass) (vims : List String) (groups : List String)
    (imp : ℕ → ModelClass → String → List ℚ) (score : ℕ → ModelClass → ℚ)
    (order₁ order₂ : List ℕ)
    (h₁ : order₁.Perm
      (List.range (out_list K models vims groups imp score).length))
    (h₂ : order₂.Perm
      (List.range (out_list K models vims groups imp score).length)) :
    collectResults (out_list K models vims groups imp score).length
        (execSchedule
          (fun i => (out_list K models vims groups imp score).getD i [])
          order₁) =
      collectResults (out_list K models vims groups imp score).length
        (execSchedule
          (fun i => (out_list K models vims groups imp score).getD i [])
          order₂) ∧
    collectResults (out_list K models vims groups imp score).length
        (execSchedule
          (fun i => (out_list K models vims groups imp score).getD i [])
          order₁) =
      (out_list K models vims groups imp score).map some := by
  have e₁ := collect_execSchedule
    (fun i => (out_list K models vims groups imp score).getD i [])
    (out_list K models vims groups imp score).length order₁ h₁
  have e₂ := collect_execSchedule
    (fun i => (out_list K models vims groups imp score).getD i [])
    (out_list K models vims groups imp score).length order₂ h₂
  have eseq : ((List.range (out_list K models vims groups imp score).length).map
      fun i => some ((out_list K models vims groups imp score).getD i [])) =
      (out_list K models vims groups imp score).map some := by
    have := map_getD_range (out_list K models vims groups imp score) []
    calc ((List.range (out_list K models vims groups imp score).length).map
        fun i => some ((out_list K models vims groups imp score).getD i []))
        = (((List.range (out_list K models vims groups imp score).length).map
            fun i => (out_list K models vims groups imp score).getD i []).map
              some) := by rw [List.map_map]; rfl
      _ = (out_list K models vims groups imp score).map some := by rw [this]
  exact ⟨e₁.trans e₂.symm, e₁.trans eseq⟩

/-- Witness for claim C8 at a one-task configuration (K = 1, one model, one
method, one group), with the only schedule of the single task. -/
theorem records_identical_under_any_schedule_witness :
    collectResults (out_list 1 [ModelClass.logisticRegressionCV] ["CPI"] ["g"]
          (fun _ _ _ => [1]) (fun _ _ => 1)).length
        (execSchedule
          (fun i => (out_list 1 [ModelClass.logisticRegressionCV] ["CPI"] ["g"]
            (fun _ _ _ => [1]) (fun _ _ => 1)).getD i []) [0]) =
      collectResults (out_list 1 [ModelClass.logisticRegressionCV] ["CPI"] ["g"]
          (fun _ _ _ => [1]) (fun _ _ => 1)).length
        (execSchedule
          (fun i => (out_list 1 [ModelClass.logisticRegressionCV] ["CPI"] ["g"]
            (fun _ _ _ => [1]) (fun _ _ => 1)).getD i []) [0]) ∧
    collectResults (out_list 1 [ModelClass.logisticRegressionCV] ["CPI"] ["g"]
          (fun _ _ _ => [1]) (fun _ _ => 1)).length
        (execSchedule
          (fun i => (out_list 1 [ModelClass.logisticRegressionCV] ["CPI"] ["g"]
            (fun _ _ _ => [1]) (fun _ _ => 1)).getD i []) [0]) =
      (out_list 1 [ModelClass.logisticRegressionCV] ["CPI"] ["g"]
        (fun _ _ _ => [1]) (fun _ _ => 1)).map some :=
  records_identical_under_any_schedule 1 [ModelClass.logisticRegressionCV]
    ["CPI"] ["g"] (fun _ _ _ => [1]) (fun _ _ => 1) [0] [0]
    (by decide) (by decide)
